import Mathlib

/-!
# ESP32 e-Paper Weather Station: the configuration header

Shallow embedding of `src/config.h` (the only source file of the firmware that
is available) together with the design-level cycle controller and sleep
scheduler that the specification builds on top of that configuration.

* machine integers are natural numbers, reduced modulo `2 ^ 64` where the
  header declares them `uint64_t`;
* C string literals are Lean strings; substring questions are asked of their
  character lists.
-/


namespace WeatherStation

/-! ## `config.h`: constants -/

/-- Value held by a `uint64_t` object initialised with the integer `n`
(conversion to a 64-bit unsigned type is reduction modulo `2 ^ 64`). -/
def uint64_t (n : Nat) : Nat := n % 2 ^ 64

/-- Value a 32-bit unsigned object would hold when given the integer `n`. -/
def uint32_t (n : Nat) : Nat := n % 2 ^ 32

/-- Line 5: `const char* WIFI_SSID = "WIFI_SSID";` -/
def WIFI_SSID : String := "WIFI_SSID"

/-- Line 6: `const char* WIFI_PASS = "WIFI_PASS";` -/
def WIFI_PASS : String := "WIFI_PASS"

/-- Line 14, the commented-out definition of `OPENWEATHER_URL` for zip code
queries. -/
def OPENWEATHER_URL_ZIP : String :=
  "https://api.openweathermap.org/data/2.5/weather?zip=ZZZZZ,CC&units=metric&appid=ABCDEFGHIJKLMNOPQRSTUVWXYZ"

/-- Line 18, the active definition: `String OPENWEATHER_URL = "..."` for city
queries. -/
def OPENWEATHER_URL : String :=
  "https://api.openweathermap.org/data/2.5/weather?q=AAA,CC&units=metric&appid=ABCDEFGHIJKLMNOPQRSTUVWXYZ"

/-- Line 21: `#define PIN_CS 5` -/
def PIN_CS : Nat := 5

/-- Line 22: `#define PIN_DC 17` -/
def PIN_DC : Nat := 17

/-- Line 23: `#define PIN_RST 16` -/
def PIN_RST : Nat := 16

/-- Line 24: `#define PIN_BUSY 4` -/
def PIN_BUSY : Nat := 4

/-- Line 28: `const uint64_t SLEEP_DURATION_OK = 14400000000ULL;` -/
def SLEEP_DURATION_OK : Nat := uint64_t 14400000000

/-- Line 30: `const uint64_t SLEEP_DURATION_ERROR = 600000000ULL;` -/
def SLEEP_DURATION_ERROR : Nat := uint64_t 600000000

/-! ## `config.h`: the placeholder tokens named in the comments

Lines 13 and 17 explain the template to the user in the form
`TOKEN = meaning`, separated by commas:

`// AAA = City (e.g. Ankara, London), CC = Country (e.g. TR, GB), ABCDEFGHIJKLMNOPQRSTUVWXYZ= = Your API Key`
-/

/-- City token of the comment on line 17. -/
def CITY_TOKEN : String := "AAA"

/-- Zip code token of the comment on line 13. -/
def ZIP_TOKEN : String := "ZZZZZ"

/-- Country token of the comments on lines 13 and 17. -/
def COUNTRY_TOKEN : String := "CC"

/-- API key token as it stands in the templates of lines 14 and 18, after
`appid=`. -/
def API_KEY_TOKEN : String := "ABCDEFGHIJKLMNOPQRSTUVWXYZ"

/-- API key token as the comments on lines 13 and 17 write it, the text left of
the separating ` = `. -/
def API_KEY_TOKEN_DOCUMENTED : String := "ABCDEFGHIJKLMNOPQRSTUVWXYZ="

/-! ## Substrings of a template -/

/-- Start positions, counted from `i`, at which `tok` stands in `s`. -/
def occurrencesFrom (tok : List Char) (i : Nat) : List Char → List Nat
  | [] => []
  | c :: cs =>
    if tok.isPrefixOf (c :: cs) then i :: occurrencesFrom tok (i + 1) cs
    else occurrencesFrom tok (i + 1) cs

/-- Start positions (0-based, in characters) of the occurrences of `tok` in
`s`. -/
def occurrences (tok s : String) : List Nat :=
  occurrencesFrom tok.toList 0 s.toList

/-- Whether `tok` occurs in `s` as a substring. -/
def containsToken (tok s : String) : Bool :=
  !(occurrences tok s).isEmpty

/-- The half-open character ranges `[p, p + m)` and `[q, q + n)` share no
position. -/
def spansDisjoint (p m q n : Nat) : Prop := p + m ≤ q ∨ q + n ≤ p

instance (p m q n : Nat) : Decidable (spansDisjoint p m q n) := by
  unfold spansDisjoint; infer_instance

/-- No occurrence of `a` in `s` shares a character position with an occurrence
of `b` in `s`. -/
def tokensApart (a b s : String) : Prop :=
  ∀ i ∈ occurrences a s, ∀ j ∈ occurrences b s, spansDisjoint i a.length j b.length

instance (a b s : String) : Decidable (tokensApart a b s) := by
  unfold tokensApart; infer_instance

/-- The characters of `tok` stand in `s` one after another, in the usual sense
of a contiguous sublist. -/
def isSubstring (tok s : String) : Prop := tok.toList <:+: s.toList

/-! ## Data model of the cycle controller (spec §3, §6, §7) -/

/-- Modelled from the spec: the `Configuration` record of §3 and §6 (network
credentials, URL template, four pin identifiers, two sleep durations in
microseconds); the firmware that reads `config.h` is not among the sources. -/
structure Configuration where
  ssid : String
  password : String
  weatherUrlTemplate : String
  pinCs : Nat
  pinDc : Nat
  pinRst : Nat
  pinBusy : Nat
  sleepDurationOk : Nat
  sleepDurationError : Nat
deriving DecidableEq, Repr

/-- The configuration that `config.h` fixes at build time. -/
def configH : Configuration :=
  Configuration.mk WIFI_SSID WIFI_PASS OPENWEATHER_URL PIN_CS PIN_DC PIN_RST PIN_BUSY
    SLEEP_DURATION_OK SLEEP_DURATION_ERROR

/-- Modelled from the spec: what a failed fetch carries according to §4.1
step 3, the HTTP status or the transport reason. -/
inductive FetchReason where
  | status (code : Nat)
  | transport (reason : String)
deriving DecidableEq, Repr

/-- Modelled from the spec: the error taxonomy of §7. -/
inductive ErrorKind where
  | NetworkUnavailable
  | FetchFailed (why : FetchReason)
  | MalformedPayload (field : String)
  | DisplayFault (reason : String)
  | ConfigError (template : String)
deriving DecidableEq, Repr

/-- Modelled from the spec: the `WeatherSnapshot` of §3 (temperature,
condition, location label, timestamp). -/
structure WeatherSnapshot where
  temperature : Rat
  condition : String
  location : String
  timestamp : Nat
deriving DecidableEq, Repr

/-- Modelled from the spec: the `CycleOutcome` of §3, exactly one of success
with the rendered data or failure with its reason. -/
inductive CycleOutcome where
  | Success (renderedData : WeatherSnapshot)
  | Failure (reason : ErrorKind)
deriving DecidableEq, Repr

/-! ## Sleep scheduler (spec §4.2) -/

/-- Modelled from the spec: `selectSleepDuration(outcome, config)` of §4.2,
which the sources do not contain. `Success` selects `config.sleepDurationOk`,
`Failure(_)` selects `config.sleepDurationError`. -/
def selectSleepDuration (outcome : CycleOutcome) (config : Configuration) : Nat :=
  match outcome with
  | .Success _ => config.sleepDurationOk
  | .Failure _ => config.sleepDurationError

/-! ## Request URL (spec §4.1 step 2, §9) -/

/-- Modelled from the spec: the values put in place of the location, country
and API key placeholders (glossary, placeholder substitution). -/
structure PlaceholderValues where
  location : String
  country : String
  apiKey : String
deriving DecidableEq, Repr

/-- One left-to-right pass over the template: where a rule's token starts, its
value is written and the token skipped; text written by a rule is not read
again. `skip` counts the token characters still to pass over. -/
def substituteFrom (rules : List (List Char × List Char)) (skip : Nat) :
    List Char → List Char
  | [] => []
  | c :: cs =>
    match skip with
    | n + 1 => substituteFrom rules n cs
    | 0 =>
      match rules.find? (fun r => !r.1.isEmpty && r.1.isPrefixOf (c :: cs)) with
      | some r => r.2 ++ substituteFrom rules (r.1.length - 1) cs
      | none => c :: substituteFrom rules 0 cs

/-- The location token of a template: the city token if it is there, otherwise
the zip code token if that one is there. -/
def locationToken (template : String) : Option String :=
  if containsToken CITY_TOKEN template then some CITY_TOKEN
  else if containsToken ZIP_TOKEN template then some ZIP_TOKEN
  else none

/-- Modelled from the spec: the templating function of §4.1 step 2 and §9. A
template that lacks one of the expected placeholder tokens is a `ConfigError`;
otherwise location, country and API key are substituted. -/
def buildUrl (template : String) (vals : PlaceholderValues) : Except ErrorKind String :=
  match locationToken template with
  | none => .error (.ConfigError template)
  | some loc =>
    if containsToken COUNTRY_TOKEN template && containsToken API_KEY_TOKEN template then
      .ok (String.mk (substituteFrom
        [(API_KEY_TOKEN.toList, vals.apiKey.toList),
         (loc.toList, vals.location.toList),
         (COUNTRY_TOKEN.toList, vals.country.toList)] 0 template.toList))
    else .error (.ConfigError template)

/-! ## Cycle controller (spec §4.1, §6) -/

/-- Modelled from the spec: status code and body of an HTTP GET (§6). -/
structure HttpResponse where
  status : Nat
  body : String
deriving DecidableEq, Repr

/-- Modelled from the spec: the external collaborators of §6. `connect` is the
blocking connect operation, `false` when no connection was made within its
timeout; `httpGet` gives a response or a transport reason; `parse` gives a
snapshot or the field that is missing or malformed; `render` gives ok or a
fault reason. -/
structure Collaborators where
  connect : String → String → Bool
  httpGet : String → Except String HttpResponse
  parse : String → Except String WeatherSnapshot
  render : WeatherSnapshot → Except String Unit

/-- Modelled from the spec: the side effects of a cycle listed in §4.1, in the
order they happen. -/
inductive Effect where
  | radioConnect (ssid password : String)
  | httpRequest (url : String)
  | displayRedraw (snapshot : WeatherSnapshot)
deriving DecidableEq, Repr

/-- Modelled from the spec: the policy choice of §7 and §9 on a display fault,
left open by the spec. -/
inductive DisplayFaultPolicy where
  | treatAsSuccess
  | treatAsFailure
deriving DecidableEq, Repr

/-- Modelled from the spec: `runCycle(config)` of §4.1, which the sources do
not contain; the result is the outcome together with the side effects made.
Steps: connect (fail fast, no retry), build the URL, issue the request (non-2xx
or transport error fails), parse, render, produce the outcome. -/
def runCycle (env : Collaborators) (vals : PlaceholderValues)
    (policy : DisplayFaultPolicy) (config : Configuration) :
    CycleOutcome × List Effect :=
  let e1 := [Effect.radioConnect config.ssid config.password]
  if env.connect config.ssid config.password then
    match buildUrl config.weatherUrlTemplate vals with
    | .error kind => (.Failure kind, e1)
    | .ok url =>
      let e3 := e1 ++ [Effect.httpRequest url]
      match env.httpGet url with
      | .error reason => (.Failure (.FetchFailed (.transport reason)), e3)
      | .ok resp =>
        if 200 ≤ resp.status ∧ resp.status < 300 then
          match env.parse resp.body with
          | .error field => (.Failure (.MalformedPayload field), e3)
          | .ok snapshot =>
            let e5 := e3 ++ [Effect.displayRedraw snapshot]
            match env.render snapshot with
            | .ok _ => (.Success snapshot, e5)
            | .error reason =>
              match policy with
              | .treatAsSuccess => (.Success snapshot, e5)
              | .treatAsFailure => (.Failure (.DisplayFault reason), e5)
        else (.Failure (.FetchFailed (.status resp.status)), e3)
  else (.Failure .NetworkUnavailable, e1)

/-- A network whose connect operation never succeeds in time; the other
collaborators answer as in the success scenario of §8. -/
def unreachableNetwork : Collaborators :=
  Collaborators.mk (fun _ _ => false)
    (fun _ => .ok (HttpResponse.mk 200 "body"))
    (fun _ => .ok (WeatherSnapshot.mk (152 / 10) "Clouds" "London" 0))
    (fun _ => .ok ())

/-- A network that connects and answers every request with status 200; the
parser and the display never fail. -/
def workingNetwork : Collaborators :=
  Collaborators.mk (fun _ _ => true)
    (fun _ => .ok (HttpResponse.mk 200 "body"))
    (fun _ => .ok (WeatherSnapshot.mk (152 / 10) "Clouds" "London" 0))
    (fun _ => .ok ())

/-- The placeholder values of the success scenario of §8. -/
def londonValues : PlaceholderValues := PlaceholderValues.mk "London" "GB" "abc123"

/-! ## What `occurrences` computes -/

/-- Unfolding `occurrencesFrom` on the empty text. -/
theorem occurrencesFrom_nil (tok : List Char) (k : Nat) :
    occurrencesFrom tok k [] = [] := rfl

/-- Unfolding `occurrencesFrom` one character. -/
theorem occurrencesFrom_cons (tok : List Char) (k : Nat) (c : Char) (cs : List Char) :
    occurrencesFrom tok k (c :: cs) =
      if tok.isPrefixOf (c :: cs) then k :: occurrencesFrom tok (k + 1) cs
      else occurrencesFrom tok (k + 1) cs := rfl

/-- Membership in `occurrencesFrom`: the positions listed are exactly the
offsets inside `s` at which `tok` is a prefix of the rest. -/
theorem mem_occurrencesFrom (tok : List Char) (s : List Char) (k i : Nat) :
    i ∈ occurrencesFrom tok k s ↔
      ∃ j, j < s.length ∧ i = k + j ∧ tok <+: s.drop j := by
  induction s generalizing k with
  | nil => simp [occurrencesFrom_nil]
  | cons c cs ih =>
    have step : i ∈ occurrencesFrom tok k (c :: cs) ↔
        (tok <+: c :: cs ∧ i = k) ∨ i ∈ occurrencesFrom tok (k + 1) cs := by
      rw [occurrencesFrom_cons]
      by_cases hp : tok.isPrefixOf (c :: cs) = true
      · have hq : tok <+: c :: cs := List.isPrefixOf_iff_prefix.mp hp
        rw [if_pos hp, List.mem_cons]
        constructor
        · rintro (h | h)
          · exact Or.inl ⟨hq, h⟩
          · exact Or.inr h
        · rintro (⟨_, h⟩ | h)
          · exact Or.inl h
          · exact Or.inr h
      · have hq : ¬ tok <+: c :: cs := fun h => hp (List.isPrefixOf_iff_prefix.mpr h)
        rw [if_neg hp]
        constructor
        · exact fun h => Or.inr h
        · rintro (⟨h, _⟩ | h)
          · exact absurd h hq
          · exact h
    rw [step, ih]
    constructor
    · rintro (⟨hq, rfl⟩ | ⟨j, hj, rfl, hq⟩)
      · exact ⟨0, by simp, rfl, by simpa using hq⟩
      · exact ⟨j + 1, by simpa using hj, by omega, by simpa using hq⟩
    · rintro ⟨j, hj, rfl, hq⟩
      cases j with
      | zero => exact Or.inl ⟨by simpa using hq, rfl⟩
      | succ j =>
        exact Or.inr ⟨j, by simpa using hj, by omega, by simpa using hq⟩

/-- The positions in `occurrences tok s` are exactly the character offsets of
`s` at which `tok` begins. -/
theorem mem_occurrences (tok s : String) (i : Nat) :
    i ∈ occurrences tok s ↔ i < s.length ∧ tok.toList <+: s.toList.drop i := by
  unfold occurrences
  rw [mem_occurrencesFrom]
  constructor
  · rintro ⟨j, hj, rfl, hq⟩
    simp only [Nat.zero_add]
    exact ⟨hj, hq⟩
  · rintro ⟨hi, hq⟩
    exact ⟨i, hi, (Nat.zero_add i).symm, hq⟩

/-- A nonempty token has an occurrence listed exactly when it is a contiguous
sublist. -/
theorem occurrencesFrom_ne_nil_iff (tok : List Char) (htok : tok ≠ [])
    (s : List Char) (k : Nat) :
    occurrencesFrom tok k s ≠ [] ↔ tok <:+: s := by
  induction s generalizing k with
  | nil => simp [occurrencesFrom_nil, htok]
  | cons c cs ih =>
    rw [List.infix_cons_iff, occurrencesFrom_cons]
    by_cases hp : tok.isPrefixOf (c :: cs) = true
    · have hq : tok <+: c :: cs := List.isPrefixOf_iff_prefix.mp hp
      rw [if_pos hp]
      simp [hq]
    · have hq : ¬ tok <+: c :: cs := fun h => hp (List.isPrefixOf_iff_prefix.mpr h)
      rw [if_neg hp]
      simp only [hq, false_or]
      exact ih (k + 1)

/-- The check `containsToken` decides `isSubstring` for a nonempty token. -/
theorem containsToken_iff_isSubstring (tok s : String) (htok : tok.toList ≠ []) :
    containsToken tok s = true ↔ isSubstring tok s := by
  unfold containsToken isSubstring occurrences
  rw [← occurrencesFrom_ne_nil_iff tok.toList htok s.toList 0]
  cases occurrencesFrom tok.toList 0 s.toList <;> simp

/-! ## The model on the scenarios of spec §8 -/

/-- Substituting London, GB and abc123 into the active template gives the
request URL of the success scenario. -/
theorem buildUrl_london :
    buildUrl OPENWEATHER_URL londonValues =
      .ok "https://api.openweathermap.org/data/2.5/weather?q=London,GB&units=metric&appid=abc123" := by
  rfl

/-- A template without placeholders is a configuration error. -/
theorem buildUrl_malformed :
    buildUrl "https://api.openweathermap.org/data/2.5/weather" londonValues =
      .error (.ConfigError "https://api.openweathermap.org/data/2.5/weather") := by
  rfl

/-- The success scenario: connect, one request to the substituted URL, one
render, outcome `Success`. -/
theorem runCycle_london (policy : DisplayFaultPolicy) :
    runCycle workingNetwork londonValues policy configH =
      (.Success (WeatherSnapshot.mk (152 / 10) "Clouds" "London" 0),
       [Effect.radioConnect "WIFI_SSID" "WIFI_PASS",
        Effect.httpRequest
          "https://api.openweathermap.org/data/2.5/weather?q=London,GB&units=metric&appid=abc123",
        Effect.displayRedraw (WeatherSnapshot.mk (152 / 10) "Clouds" "London" 0)]) := by
  have hcfg : configH.weatherUrlTemplate = OPENWEATHER_URL := rfl
  simp only [runCycle, hcfg, buildUrl_london]
  rfl

/-! ## The sleep constants -/

/-- C2: the normal-cycle sleep constant `SLEEP_DURATION_OK` is 14,400,000,000
microseconds, which is exactly 4 hours in microseconds, 4 * 60 * 60 *
1,000,000. -/
theorem SLEEP_DURATION_OK_is_four_hours :
    SLEEP_DURATION_OK = 14400000000 ∧ SLEEP_DURATION_OK = 4 * 60 * 60 * 1000000 := by
  unfold SLEEP_DURATION_OK uint64_t
  constructor <;> norm_num

/-- C3: the error-cycle sleep constant `SLEEP_DURATION_ERROR` is 600,000,000
microseconds, which is exactly 10 minutes in microseconds, 10 * 60 *
1,000,000. -/
theorem SLEEP_DURATION_ERROR_is_ten_minutes :
    SLEEP_DURATION_ERROR = 600000000 ∧ SLEEP_DURATION_ERROR = 10 * 60 * 1000000 := by
  unfold SLEEP_DURATION_ERROR uint64_t
  constructor <;> norm_num

/-- C6: the error-cycle interval is the short one and the normal-cycle interval
the long one: `SLEEP_DURATION_ERROR` is strictly less than `SLEEP_DURATION_OK`
and both are strictly positive. -/
theorem SLEEP_DURATION_ERROR_lt_OK :
    SLEEP_DURATION_ERROR < SLEEP_DURATION_OK ∧
    0 < SLEEP_DURATION_ERROR ∧ 0 < SLEEP_DURATION_OK := by
  unfold SLEEP_DURATION_ERROR SLEEP_DURATION_OK uint64_t
  refine ⟨?_, ?_, ?_⟩ <;> norm_num

/-- C9: `SLEEP_DURATION_OK` fits an unsigned 64-bit integer without wraparound
(the stored value is the literal 14,400,000,000 and is below 2^64) but does
not fit 32 bits: it is at least 2^32 and its reduction modulo 2^32 is
1,515,098,112, a different value; `SLEEP_DURATION_ERROR` is below 2^32. -/
theorem SLEEP_DURATION_bit_widths :
    SLEEP_DURATION_OK = 14400000000 ∧
    SLEEP_DURATION_OK < 2 ^ 64 ∧
    2 ^ 32 ≤ SLEEP_DURATION_OK ∧
    uint32_t SLEEP_DURATION_OK = 1515098112 ∧
    uint32_t SLEEP_DURATION_OK ≠ SLEEP_DURATION_OK ∧
    SLEEP_DURATION_ERROR = 600000000 ∧
    SLEEP_DURATION_ERROR < 2 ^ 32 := by
  unfold SLEEP_DURATION_OK SLEEP_DURATION_ERROR uint32_t uint64_t
  refine ⟨?_, ?_, ?_, ?_, ?_, ?_, ?_⟩ <;> norm_num

/-! ## The sleep scheduler -/

/-- C1: for every configuration `selectSleepDuration` gives
`cfg.sleepDurationOk` on `Success` and `cfg.sleepDurationError` on
`Failure(k)` for every error kind `k`; for the configuration of `config.h`
these are 14,400,000,000 and 600,000,000 microseconds. -/
theorem selectSleepDuration_spec :
    (∀ (cfg : Configuration) (snapshot : WeatherSnapshot),
      selectSleepDuration (.Success snapshot) cfg = cfg.sleepDurationOk) ∧
    (∀ (cfg : Configuration) (k : ErrorKind),
      selectSleepDuration (.Failure k) cfg = cfg.sleepDurationError) ∧
    (∀ snapshot : WeatherSnapshot,
      selectSleepDuration (.Success snapshot) configH = SLEEP_DURATION_OK ∧
      selectSleepDuration (.Success snapshot) configH = 14400000000) ∧
    (∀ k : ErrorKind,
      selectSleepDuration (.Failure k) configH = SLEEP_DURATION_ERROR ∧
      selectSleepDuration (.Failure k) configH = 600000000) := by
  have hok : SLEEP_DURATION_OK = 14400000000 := by
    unfold SLEEP_DURATION_OK uint64_t
    norm_num
  have herr : SLEEP_DURATION_ERROR = 600000000 := by
    unfold SLEEP_DURATION_ERROR uint64_t
    norm_num
  exact ⟨fun _ _ => rfl, fun _ _ => rfl, fun _ => ⟨rfl, hok⟩, fun _ => ⟨rfl, herr⟩⟩

/-! ## The URL template -/

/-- C4: the active template `OPENWEATHER_URL` contains the placeholder tokens
of the city variant, `AAA`, `CC` and `ABCDEFGHIJKLMNOPQRSTUVWXYZ`, as the
values of the query parameters `q` (as `q=AAA,CC`, right after the `?` and
closed by `&`) and `appid` (as `appid=ABCDEFGHIJKLMNOPQRSTUVWXYZ`, the last
parameter of the template). -/
theorem OPENWEATHER_URL_has_city_placeholders :
    isSubstring CITY_TOKEN OPENWEATHER_URL ∧
    isSubstring COUNTRY_TOKEN OPENWEATHER_URL ∧
    isSubstring API_KEY_TOKEN OPENWEATHER_URL ∧
    isSubstring "q=AAA,CC" OPENWEATHER_URL ∧
    isSubstring "appid=ABCDEFGHIJKLMNOPQRSTUVWXYZ" OPENWEATHER_URL ∧
    isSubstring ("?q=" ++ CITY_TOKEN ++ "," ++ COUNTRY_TOKEN ++ "&") OPENWEATHER_URL ∧
    ("&appid=" ++ API_KEY_TOKEN).toList <:+ OPENWEATHER_URL.toList := by
  refine ⟨?_, ?_, ?_, ?_, ?_, ?_, ?_⟩
  · exact (containsToken_iff_isSubstring _ _ (by decide)).mp (by decide)
  · exact (containsToken_iff_isSubstring _ _ (by decide)).mp (by decide)
  · exact (containsToken_iff_isSubstring _ _ (by decide)).mp (by decide)
  · exact (containsToken_iff_isSubstring _ _ (by decide)).mp (by decide)
  · exact (containsToken_iff_isSubstring _ _ (by decide)).mp (by decide)
  · exact (containsToken_iff_isSubstring _ _ (by decide)).mp (by decide)
  · exact ⟨"https://api.openweathermap.org/data/2.5/weather?q=AAA,CC&units=metric".toList,
      by decide⟩

/-- C5, as the code has it: the API key token in the spelling of the comments
on lines 13 and 17, `ABCDEFGHIJKLMNOPQRSTUVWXYZ=`, is a substring neither of
the active template nor of the commented-out zip code template; the templates
hold the token without the trailing `=`, at their very end. -/
theorem documented_api_key_token_not_in_templates :
    ¬ isSubstring API_KEY_TOKEN_DOCUMENTED OPENWEATHER_URL ∧
    ¬ isSubstring API_KEY_TOKEN_DOCUMENTED OPENWEATHER_URL_ZIP ∧
    occurrences API_KEY_TOKEN_DOCUMENTED OPENWEATHER_URL = [] ∧
    occurrences API_KEY_TOKEN_DOCUMENTED OPENWEATHER_URL_ZIP = [] ∧
    API_KEY_TOKEN_DOCUMENTED = API_KEY_TOKEN ++ "=" ∧
    API_KEY_TOKEN.toList <:+ OPENWEATHER_URL.toList ∧
    API_KEY_TOKEN.toList <:+ OPENWEATHER_URL_ZIP.toList := by
  refine ⟨?_, ?_, by decide, by decide, by decide, ?_, ?_⟩
  · intro h
    have hc := (containsToken_iff_isSubstring _ _ (by decide)).mpr h
    exact absurd hc (by decide)
  · intro h
    have hc := (containsToken_iff_isSubstring _ _ (by decide)).mpr h
    exact absurd hc (by decide)
  · exact ⟨"https://api.openweathermap.org/data/2.5/weather?q=AAA,CC&units=metric&appid=".toList,
      by decide⟩
  · exact ⟨"https://api.openweathermap.org/data/2.5/weather?zip=ZZZZZ,CC&units=metric&appid=".toList,
      by decide⟩

/-- C8: in the active template `OPENWEATHER_URL` each of the tokens `AAA`, `CC`
and `ABCDEFGHIJKLMNOPQRSTUVWXYZ` occurs exactly once (at characters 50, 54 and
76), and no occurrence of one token shares a character with an occurrence of
another, so the places to substitute are unambiguous. -/
theorem OPENWEATHER_URL_tokens_unambiguous :
    occurrences CITY_TOKEN OPENWEATHER_URL = [50] ∧
    occurrences COUNTRY_TOKEN OPENWEATHER_URL = [54] ∧
    occurrences API_KEY_TOKEN OPENWEATHER_URL = [76] ∧
    (occurrences CITY_TOKEN OPENWEATHER_URL).length = 1 ∧
    (occurrences COUNTRY_TOKEN OPENWEATHER_URL).length = 1 ∧
    (occurrences API_KEY_TOKEN OPENWEATHER_URL).length = 1 ∧
    tokensApart CITY_TOKEN COUNTRY_TOKEN OPENWEATHER_URL ∧
    tokensApart CITY_TOKEN API_KEY_TOKEN OPENWEATHER_URL ∧
    tokensApart COUNTRY_TOKEN API_KEY_TOKEN OPENWEATHER_URL := by
  refine ⟨?_, ?_, ?_, ?_, ?_, ?_, ?_, ?_, ?_⟩ <;> decide

/-! ## The cycle controller -/

/-- C7: when the connect step of `runCycle` fails within its timeout, the
outcome is `Failure(NetworkUnavailable)`, no HTTP request is issued, render is
not called, and the sleep selected next is the configuration's error
duration, which is 600,000,000 microseconds when the configuration carries
`SLEEP_DURATION_ERROR` of `config.h`. -/
theorem runCycle_connect_timeout (env : Collaborators) (vals : PlaceholderValues)
    (policy : DisplayFaultPolicy) (config : Configuration)
    (hconnect : env.connect config.ssid config.password = false) :
    (runCycle env vals policy config).1 = .Failure .NetworkUnavailable ∧
    (∀ url, Effect.httpRequest url ∉ (runCycle env vals policy config).2) ∧
    (∀ snapshot, Effect.displayRedraw snapshot ∉ (runCycle env vals policy config).2) ∧
    selectSleepDuration (runCycle env vals policy config).1 config
      = config.sleepDurationError ∧
    (config.sleepDurationError = SLEEP_DURATION_ERROR →
      selectSleepDuration (runCycle env vals policy config).1 config = 600000000) := by
  have hrun : runCycle env vals policy config =
      (.Failure .NetworkUnavailable, [Effect.radioConnect config.ssid config.password]) := by
    simp [runCycle, hconnect]
  have herr : SLEEP_DURATION_ERROR = 600000000 := by
    unfold SLEEP_DURATION_ERROR uint64_t
    norm_num
  rw [hrun]
  refine ⟨rfl, ?_, ?_, rfl, ?_⟩
  · intro url h
    simp at h
  · intro snapshot h
    simp at h
  · intro h
    show config.sleepDurationError = 600000000
    rw [h, herr]

/-- C7 at a concrete input: the configuration of `config.h`, a network that
cannot be reached, the placeholder values of the London scenario. -/
theorem runCycle_connect_timeout_witness :
    unreachableNetwork.connect configH.ssid configH.password = false ∧
    configH.sleepDurationError = SLEEP_DURATION_ERROR ∧
    (runCycle unreachableNetwork londonValues .treatAsFailure configH).1
        = .Failure .NetworkUnavailable ∧
    (∀ url, Effect.httpRequest url ∉
        (runCycle unreachableNetwork londonValues .treatAsFailure configH).2) ∧
    (∀ snapshot, Effect.displayRedraw snapshot ∉
        (runCycle unreachableNetwork londonValues .treatAsFailure configH).2) ∧
    selectSleepDuration
        (runCycle unreachableNetwork londonValues .treatAsFailure configH).1 configH
      = 600000000 :=
  have h := runCycle_connect_timeout unreachableNetwork londonValues .treatAsFailure
    configH rfl
  ⟨rfl, rfl, h.1, h.2.1, h.2.2.1, h.2.2.2.2 rfl⟩

end WeatherStation
